import Mathlib

/-!
VulkanTutorial: the instance / device bootstrap of `HelloTriangleApplication`

A shallow embedding of `src/DrawingTrianglesExample.cpp` and `src/Core.cpp`.

* The Vulkan runtime and the GLFW windowing library are external collaborators.  Every answer
  they give to the program is a field of `Runtime`; the program is a function of that record.
* The application object is the record `App`.  Besides the C++ members that the bootstrap
  logic branches on, it carries `trace`, the list of calls made so far across the native API
  boundary (enumeration queries apart), in program order.
* A C++ member function `void f()` that may throw becomes `f : App → Outcome`; the outcome
  holds the exception in flight (if any) together with the application state at that point.
* `uint32_t` values are natural numbers; the one narrowing conversion of the source
  (`int` to `uint32_t` in `findQueueFamilies`) is written out with `% 2 ^ 32`.
-/

namespace VulkanTutorial

/-! ## Constants of the Vulkan and C headers used by the source -/

/-- Status code of a native creation call (`VkResult`, a signed 32 bit enumeration). -/
abbrev VkResult := Int

/-- Value of `VK_SUCCESS` in `vulkan_core.h`. -/
def VK_SUCCESS : VkResult := 0

/-- Value of `VK_ERROR_EXTENSION_NOT_PRESENT` in `vulkan_core.h`. -/
def VK_ERROR_EXTENSION_NOT_PRESENT : VkResult := -7

/-- Value of `VK_QUEUE_GRAPHICS_BIT` in `vulkan_core.h`. -/
def VK_QUEUE_GRAPHICS_BIT : Nat := 0x00000001

/-- Physical device handle (`VkPhysicalDevice`), seen as the numeric value of the handle. -/
abbrev VkPhysicalDevice := Nat

/-- Value of `VK_NULL_HANDLE`. -/
def VK_NULL_HANDLE : VkPhysicalDevice := 0

/-- Value of `VK_EXT_DEBUG_UTILS_EXTENSION_NAME`. -/
def VK_EXT_DEBUG_UTILS_EXTENSION_NAME : String := "VK_EXT_debug_utils"

/-- Value of `EXIT_SUCCESS` in `cstdlib`. -/
def EXIT_SUCCESS : Int := 0

/-- Value of `EXIT_FAILURE` in `cstdlib`. -/
def EXIT_FAILURE : Int := 1

def VK_DEBUG_UTILS_MESSAGE_SEVERITY_VERBOSE_BIT_EXT : Nat := 0x00000001
def VK_DEBUG_UTILS_MESSAGE_SEVERITY_WARNING_BIT_EXT : Nat := 0x00000100
def VK_DEBUG_UTILS_MESSAGE_SEVERITY_ERROR_BIT_EXT : Nat := 0x00001000
def VK_DEBUG_UTILS_MESSAGE_TYPE_GENERAL_BIT_EXT : Nat := 0x00000001
def VK_DEBUG_UTILS_MESSAGE_TYPE_VALIDATION_BIT_EXT : Nat := 0x00000002
def VK_DEBUG_UTILS_MESSAGE_TYPE_PERFORMANCE_BIT_EXT : Nat := 0x00000004

/-! ## File-scope configuration of `DrawingTrianglesExample.cpp` -/

/-- The two file-scope constants the bootstrap logic reads: the requested layer names
(`validationLayers`) and the build-mode switch (`enableValidationLayers`, false under
`NDEBUG`). -/
structure Config where
  validationLayers : List String
  enableValidationLayers : Bool

/-- The layer list written in the source, lines 8-10. -/
def validationLayers : List String := ["VK_LAYER_KHRONOS_validation"]

/-- Configuration of a build without `NDEBUG`. -/
def debugConfig : Config := ⟨validationLayers, true⟩

/-- Configuration of a build with `NDEBUG`. -/
def releaseConfig : Config := ⟨validationLayers, false⟩

/-! ## Exceptions -/

/-- Dynamic type of a thrown C++ object, among those the program can throw. -/
inductive ExceptionType where
  | exception
  | runtime_error
  | bad_optional_access
  deriving DecidableEq, Repr

/-- A thrown C++ exception object: its dynamic type and what `what()` returns. -/
structure CppException where
  dynamicType : ExceptionType
  what : String
  deriving DecidableEq, Repr

/-- The object `std::runtime_error(msg)`. -/
def runtime_error (msg : String) : CppException := ⟨ExceptionType.runtime_error, msg⟩

/-- The C++ standard library in use.  `slicedWhat e` is what `what()` returns on a
`std::exception` copy-constructed from an object `e` of a derived class; the standard leaves
it to the implementation, and `bad_optional_access_what` likewise. -/
structure StdLib where
  slicedWhat : CppException → String
  bad_optional_access_what : String

/-- A library whose base-class copy forgets the derived message (libstdc++, libc++). -/
def genericWhatLib : StdLib := ⟨fun _ => "std::exception", "bad optional access"⟩

/-- A library whose base class stores the message and copies it (the MSVC library). -/
def messageKeepingLib : StdLib := ⟨fun e => e.what, "Bad optional access"⟩

/-- Copy-initialisation of a `std::exception` object from `e`, as performed by `throw e;`
where `e` has static type `const std::exception&`: the new object has dynamic type
`std::exception`; its message equals that of `e` when `e` itself is a plain
`std::exception`, and is the implementation's choice otherwise. -/
def copyAsStdException (lib : StdLib) (e : CppException) : CppException :=
  ⟨ExceptionType.exception,
    if e.dynamicType = ExceptionType.exception then e.what else lib.slicedWhat e⟩

/-! ## Records exchanged with the runtime -/

/-- The part of `VkQueueFamilyProperties` the program reads. -/
structure VkQueueFamilyProperties where
  queueFlags : Nat
  queueCount : Nat
  deriving DecidableEq, Repr

/-- The fields `populateDebugMessengerCreateInfo` fills in (the callback is fixed). -/
structure VkDebugUtilsMessengerCreateInfoEXT where
  messageSeverity : Nat
  messageType : Nat
  deriving DecidableEq, Repr

/-- The fields of `VkInstanceCreateInfo` that `createInstance` fills in. -/
structure VkInstanceCreateInfo where
  applicationName : String
  engineName : String
  enabledExtensionNames : List String
  enabledLayerNames : List String
  pNext : Option VkDebugUtilsMessengerCreateInfoEXT
  deriving DecidableEq, Repr

/-- The fields of `VkDeviceQueueCreateInfo` that `createLogicalDevice` fills in (the single
priority `1.0f` is a float and is left out). -/
structure VkDeviceQueueCreateInfo where
  queueFamilyIndex : Nat
  queueCount : Nat
  deriving DecidableEq, Repr

/-- The fields of `VkDeviceCreateInfo` that `createLogicalDevice` fills in;
`queueCreateInfos` is the array `pQueueCreateInfos` of length `queueCreateInfoCount`. -/
structure VkDeviceCreateInfo where
  queueCreateInfos : List VkDeviceQueueCreateInfo
  enabledExtensionCount : Nat
  enabledLayerNames : List String
  deriving DecidableEq, Repr

/-- Everything the external collaborators answer.
* `availableLayers`: names from `vkEnumerateInstanceLayerProperties`;
* `glfwRequiredInstanceExtensions`: the array from `glfwGetRequiredInstanceExtensions`;
* `vkCreateInstance`, `vkCreateDevice`: status of the creation call for given arguments;
* `pfnCreateDebugUtilsMessengerEXT`: what `vkGetInstanceProcAddr` yields for
  `"vkCreateDebugUtilsMessengerEXT"`, `none` being `nullptr`, `some f` a function whose status
  for a given create-info is `f info`;
* `pfnDestroyDebugUtilsMessengerEXT`: whether `vkGetInstanceProcAddr` yields a function for
  `"vkDestroyDebugUtilsMessengerEXT"`;
* `physicalDevices`: the handles from `vkEnumeratePhysicalDevices`;
* `queueFamilyProperties d`: the array from `vkGetPhysicalDeviceQueueFamilyProperties` for `d`;
* `windowShouldClose k`: the answer of the `k`-th call of `glfwWindowShouldClose`;
* `stdlib`: the C++ standard library the program is linked with. -/
structure Runtime where
  availableLayers : List String
  glfwRequiredInstanceExtensions : List String
  vkCreateInstance : VkInstanceCreateInfo → VkResult
  pfnCreateDebugUtilsMessengerEXT : Option (VkDebugUtilsMessengerCreateInfoEXT → VkResult)
  pfnDestroyDebugUtilsMessengerEXT : Bool
  physicalDevices : List VkPhysicalDevice
  queueFamilyProperties : VkPhysicalDevice → List VkQueueFamilyProperties
  vkCreateDevice : VkPhysicalDevice → VkDeviceCreateInfo → VkResult
  windowShouldClose : Nat → Bool
  stdlib : StdLib


/-! ## Application state -/

/-- The three kinds of owned handle of the data model. -/
inductive HandleKind where
  | Instance
  | Messenger
  | LogicalDevice
  deriving DecidableEq, Repr

/-- A call across the native API boundary that creates, destroys or retrieves an object,
resolves an entry point or drives the window, with its arguments and, for creation calls,
the status it returned.  Pure enumeration queries and window hints leave no event. -/
inductive Event where
  | glfwInit
  | glfwCreateWindow
  | vkCreateInstance (info : VkInstanceCreateInfo) (result : VkResult)
  | vkGetInstanceProcAddr (name : String)
  | pfnCreateDebugUtilsMessengerEXT (info : VkDebugUtilsMessengerCreateInfoEXT) (result : VkResult)
  | vkCreateDevice (physicalDevice : VkPhysicalDevice) (info : VkDeviceCreateInfo) (result : VkResult)
  | vkGetDeviceQueue (queueFamilyIndex : Nat) (queueIndex : Nat)
  | glfwPollEvents
  | vkDestroyDevice
  | pfnDestroyDebugUtilsMessengerEXT
  | vkDestroyInstance
  | glfwDestroyWindow
  | glfwTerminate
  deriving DecidableEq, Repr

/-- The members of `HelloTriangleApplication` the program reads back, and the call trace.
`graphicsQueue` is `some (family, index)` once `vkGetDeviceQueue` has filled it. -/
structure App where
  physicalDevice : VkPhysicalDevice
  graphicsQueue : Option (Nat × Nat)
  trace : List Event
  deriving DecidableEq, Repr

/-- A freshly constructed `HelloTriangleApplication`: `physicalDevice = VK_NULL_HANDLE`. -/
def App.fresh : App := ⟨VK_NULL_HANDLE, none, []⟩

/-- Record one call at the end of the trace. -/
def App.emit (s : App) (e : Event) : App := { s with trace := s.trace ++ [e] }

/-- How a member function ended: `thrown = none` is a normal return. -/
structure Outcome where
  thrown : Option CppException
  app : App
  deriving DecidableEq, Repr

/-- Sequencing of two statements: the second runs only if the first returned normally. -/
def Outcome.andThen (o : Outcome) (f : App → Outcome) : Outcome :=
  match o.thrown with
  | none => f o.app
  | some _ => o

/-! ## Queue Family Resolver (`findQueueFamilies`, lines 188-209) -/

/-- The struct `QueueFamilyIndices`. -/
structure QueueFamilyIndices where
  graphicsFamily : Option Nat
  deriving DecidableEq, Repr

/-- The member `isComplete`: `graphicsFamily.has_value()`. -/
def QueueFamilyIndices.isComplete (indices : QueueFamilyIndices) : Bool :=
  indices.graphicsFamily.isSome

/-- The test `queueFamily.queueFlags & VK_QUEUE_GRAPHICS_BIT` of line 199. -/
def hasGraphicsBit (queueFamily : VkQueueFamilyProperties) : Bool :=
  queueFamily.queueFlags &&& VK_QUEUE_GRAPHICS_BIT != 0

/-- The range-for loop of lines 198-207, from the element the iteration stands at.  `i` is
the mathematical value of the `int` counter; the assignment `indices.graphicsFamily = i`
converts it to `uint32_t`, hence `% 2 ^ 32`. -/
def findQueueFamiliesLoop :
    List VkQueueFamilyProperties → Nat → QueueFamilyIndices → QueueFamilyIndices
  | [], _, indices => indices
  | queueFamily :: rest, i, indices =>
    let indices1 : QueueFamilyIndices :=
      if hasGraphicsBit queueFamily then ⟨some (i % 2 ^ 32)⟩ else indices
    if indices1.isComplete then indices1
    else findQueueFamiliesLoop rest (i + 1) indices1

/-- The function `findQueueFamilies` on the family list the runtime returned for the device. -/
def findQueueFamiliesOf (queueFamilies : List VkQueueFamilyProperties) : QueueFamilyIndices :=
  findQueueFamiliesLoop queueFamilies 0 ⟨none⟩

/-- The function `findQueueFamilies(device)`. -/
def findQueueFamilies (rt : Runtime) (device : VkPhysicalDevice) : QueueFamilyIndices :=
  findQueueFamiliesOf (rt.queueFamilyProperties device)

/-- The function `isDeviceSuitable(device)`, lines 181-185. -/
def isDeviceSuitable (rt : Runtime) (device : VkPhysicalDevice) : Bool :=
  (findQueueFamilies rt device).isComplete

/-! ## Capability Negotiator (`checkValidationLayerSupport`, lines 294-318) -/

/-- The inner loop of lines 303-310 for one requested name: the value of `layerFound` when
the loop is left.  `strcmp(a, b) == 0` is equality of the two strings. -/
def layerFoundIn (layerName : String) : List String → Bool
  | [] => false
  | layerProperties :: rest =>
    if layerName = layerProperties then true else layerFoundIn layerName rest

/-- The function `checkValidationLayerSupport`, with the requested names and the runtime's
enumeration as arguments. -/
def checkValidationLayerSupport : List String → List String → Bool
  | [], _ => true
  | layerName :: rest, availableLayers =>
    if !layerFoundIn layerName availableLayers then false
    else checkValidationLayerSupport rest availableLayers

/-! ## Extension Collector (`getRequiredExtensions`, lines 278-291) -/

/-- The function `getRequiredExtensions`. -/
def getRequiredExtensions (cfg : Config) (rt : Runtime) : List String :=
  let extensions := rt.glfwRequiredInstanceExtensions
  if cfg.enableValidationLayers then extensions ++ [VK_EXT_DEBUG_UTILS_EXTENSION_NAME]
  else extensions

/-! ## Instance Builder (`createInstance`, lines 212-254) -/

/-- The function `populateDebugMessengerCreateInfo`, lines 257-263. -/
def populateDebugMessengerCreateInfo : VkDebugUtilsMessengerCreateInfoEXT :=
  { messageSeverity :=
      VK_DEBUG_UTILS_MESSAGE_SEVERITY_VERBOSE_BIT_EXT
        ||| VK_DEBUG_UTILS_MESSAGE_SEVERITY_WARNING_BIT_EXT
        ||| VK_DEBUG_UTILS_MESSAGE_SEVERITY_ERROR_BIT_EXT,
    messageType :=
      VK_DEBUG_UTILS_MESSAGE_TYPE_GENERAL_BIT_EXT
        ||| VK_DEBUG_UTILS_MESSAGE_TYPE_VALIDATION_BIT_EXT
        ||| VK_DEBUG_UTILS_MESSAGE_TYPE_PERFORMANCE_BIT_EXT }

/-- The `VkInstanceCreateInfo` built in lines 219-248. -/
def instanceCreateInfo (cfg : Config) (rt : Runtime) : VkInstanceCreateInfo :=
  let extensions := getRequiredExtensions cfg rt
  if cfg.enableValidationLayers then
    { applicationName := "Hello Triangle", engineName := "No Engine",
      enabledExtensionNames := extensions,
      enabledLayerNames := cfg.validationLayers,
      pNext := some populateDebugMessengerCreateInfo }
  else
    { applicationName := "Hello Triangle", engineName := "No Engine",
      enabledExtensionNames := extensions,
      enabledLayerNames := [],
      pNext := none }

/-- The function `createInstance`. -/
def createInstance (cfg : Config) (rt : Runtime) (s : App) : Outcome :=
  if cfg.enableValidationLayers
      && !checkValidationLayerSupport cfg.validationLayers rt.availableLayers then
    ⟨some (runtime_error "validation layers requested, but not available!"), s⟩
  else
    let createInfo := instanceCreateInfo cfg rt
    let result := rt.vkCreateInstance createInfo
    let s1 := s.emit (Event.vkCreateInstance createInfo result)
    if result ≠ VK_SUCCESS then ⟨some (runtime_error "failed to create instance!"), s1⟩
    else ⟨none, s1⟩

/-! ## Diagnostic Messenger (lines 20-36 and 266-275) -/

/-- The free function `CreateDebugUtilsMessengerEXT`: the status it returns and the state
after it. -/
def CreateDebugUtilsMessengerEXT (rt : Runtime) (pCreateInfo : VkDebugUtilsMessengerCreateInfoEXT)
    (s : App) : VkResult × App :=
  let s1 := s.emit (Event.vkGetInstanceProcAddr "vkCreateDebugUtilsMessengerEXT")
  match rt.pfnCreateDebugUtilsMessengerEXT with
  | some func =>
    let result := func pCreateInfo
    (result, s1.emit (Event.pfnCreateDebugUtilsMessengerEXT pCreateInfo result))
  | none => (VK_ERROR_EXTENSION_NOT_PRESENT, s1)

/-- The free function `DestroyDebugUtilsMessengerEXT`. -/
def DestroyDebugUtilsMessengerEXT (rt : Runtime) (s : App) : App :=
  let s1 := s.emit (Event.vkGetInstanceProcAddr "vkDestroyDebugUtilsMessengerEXT")
  if rt.pfnDestroyDebugUtilsMessengerEXT then s1.emit Event.pfnDestroyDebugUtilsMessengerEXT
  else s1

/-- The function `setupDebugMessenger`. -/
def setupDebugMessenger (cfg : Config) (rt : Runtime) (s : App) : Outcome :=
  if !cfg.enableValidationLayers then ⟨none, s⟩
  else
    let createInfo := populateDebugMessengerCreateInfo
    let r := CreateDebugUtilsMessengerEXT rt createInfo s
    if r.1 ≠ VK_SUCCESS then ⟨some (runtime_error "failed to set up debug messenger!"), r.2⟩
    else ⟨none, r.2⟩

/-! ## Device Selector (`pickPhysicalDevice`, lines 156-178) -/

/-- The range-for loop of lines 168-173 from the element the iteration stands at; the result
is the value of the member `physicalDevice` when the loop is left. -/
def pickPhysicalDeviceLoop (rt : Runtime) :
    List VkPhysicalDevice → VkPhysicalDevice → VkPhysicalDevice
  | [], physicalDevice => physicalDevice
  | device :: rest, physicalDevice =>
    if isDeviceSuitable rt device then device
    else pickPhysicalDeviceLoop rt rest physicalDevice

/-- The function `pickPhysicalDevice`. -/
def pickPhysicalDevice (rt : Runtime) (s : App) : Outcome :=
  let deviceCount := rt.physicalDevices.length
  if deviceCount = 0 then
    ⟨some (runtime_error "failed to find GPUs with Vulkan support!"), s⟩
  else
    let devices := rt.physicalDevices
    let s1 : App := { s with physicalDevice := pickPhysicalDeviceLoop rt devices s.physicalDevice }
    if s1.physicalDevice = VK_NULL_HANDLE then
      ⟨some (runtime_error "failed to find a suitable GPU!"), s1⟩
    else ⟨none, s1⟩

/-! ## Logical Device Builder (`createLogicalDevice`, lines 118-153) -/

/-- The `VkDeviceCreateInfo` built in lines 121-145 for the family index `k`. -/
def deviceCreateInfo (cfg : Config) (k : Nat) : VkDeviceCreateInfo :=
  let queueCreateInfo : VkDeviceQueueCreateInfo := { queueFamilyIndex := k, queueCount := 1 }
  { queueCreateInfos := [queueCreateInfo],
    enabledExtensionCount := 0,
    enabledLayerNames := if cfg.enableValidationLayers then cfg.validationLayers else [] }

/-- The function `createLogicalDevice`.  `indices.graphicsFamily.value()` throws
`std::bad_optional_access` on an empty optional. -/
def createLogicalDevice (cfg : Config) (rt : Runtime) (s : App) : Outcome :=
  let indices := findQueueFamilies rt s.physicalDevice
  match indices.graphicsFamily with
  | none => ⟨some ⟨ExceptionType.bad_optional_access, rt.stdlib.bad_optional_access_what⟩, s⟩
  | some k =>
    let createInfo := deviceCreateInfo cfg k
    let result := rt.vkCreateDevice s.physicalDevice createInfo
    let s1 := s.emit (Event.vkCreateDevice s.physicalDevice createInfo result)
    if result ≠ VK_SUCCESS then ⟨some (runtime_error "failed to create logical device!"), s1⟩
    else
      let s2 : App := { s1 with graphicsQueue := some (k, 0) }
      ⟨none, s2.emit (Event.vkGetDeviceQueue k 0)⟩

/-! ## Lifecycle Controller (lines 52-57, 77-115, 329-339 and `Core.cpp`) -/

/-- The function `initWindow`. -/
def initWindow (s : App) : App :=
  (s.emit Event.glfwInit).emit Event.glfwCreateWindow

/-- The function `initVulkan`. -/
def initVulkan (cfg : Config) (rt : Runtime) (s : App) : Outcome :=
  (((createInstance cfg rt s).andThen (setupDebugMessenger cfg rt)).andThen
    (pickPhysicalDevice rt)).andThen (createLogicalDevice cfg rt)

/-- The function `mainLoop`: `k` is the number of `glfwWindowShouldClose` calls made so far.
The loop of the source need not end; `fuel` bounds the number of iterations looked at, and
`none` means the loop is still running when the fuel is used up. -/
def mainLoop (rt : Runtime) : Nat → Nat → App → Option App
  | 0, _, _ => none
  | fuel + 1, k, s =>
    if rt.windowShouldClose k then some s
    else mainLoop rt fuel (k + 1) (s.emit Event.glfwPollEvents)

/-- The function `cleanup`. -/
def cleanup (cfg : Config) (rt : Runtime) (s : App) : App :=
  let s1 := s.emit Event.vkDestroyDevice
  let s2 := if cfg.enableValidationLayers then DestroyDebugUtilsMessengerEXT rt s1 else s1
  ((s2.emit Event.vkDestroyInstance).emit Event.glfwDestroyWindow).emit Event.glfwTerminate

/-- The function `HelloTriangleApplication::run` on an application object `s`. -/
def HelloTriangleApplication.run (cfg : Config) (rt : Runtime) (fuel : Nat) (s : App) :
    Option Outcome :=
  let o := initVulkan cfg rt (initWindow s)
  match o.thrown with
  | some _ => some o
  | none =>
    match mainLoop rt fuel 0 o.app with
    | none => none
    | some s1 => some ⟨none, cleanup cfg rt s1⟩

/-- The function `DrawingTrianglesExample::run`: a fresh `HelloTriangleApplication` is run;
the handler catches by `const std::exception&` and executes `throw e;`, which throws a new
object copy-initialised from the static type of `e`. -/
def DrawingTrianglesExample.run (cfg : Config) (rt : Runtime) (fuel : Nat) : Option Outcome :=
  match HelloTriangleApplication.run cfg rt fuel App.fresh with
  | none => none
  | some o =>
    match o.thrown with
    | none => some o
    | some e => some ⟨some (copyAsStdException rt.stdlib e), o.app⟩

/-- What the process leaves behind: its exit status, the lines written to `std::cerr`, and the
calls it made. -/
structure ProcessResult where
  exitStatus : Int
  cerr : List String
  trace : List Event
  deriving DecidableEq, Repr

/-- The function `main` of `Core.cpp`. -/
def main (cfg : Config) (rt : Runtime) (fuel : Nat) : Option ProcessResult :=
  match DrawingTrianglesExample.run cfg rt fuel with
  | none => none
  | some o =>
    match o.thrown with
    | some e => some ⟨EXIT_FAILURE, [e.what], o.app.trace⟩
    | none => some ⟨EXIT_SUCCESS, [], o.app.trace⟩

/-! ## Reading the lifecycle off a trace -/

/-- A handle coming into existence or being destroyed. -/
inductive LifecycleEvent where
  | created (h : HandleKind)
  | destroyed (h : HandleKind)
  deriving DecidableEq, Repr

/-- The lifecycle meaning of one call: a creation call creates its handle exactly when it
returns `VK_SUCCESS`; a destruction call destroys its handle. -/
def lifecycleOf : Event → Option LifecycleEvent
  | Event.vkCreateInstance _ result =>
    if result = VK_SUCCESS then some (LifecycleEvent.created HandleKind.Instance) else none
  | Event.pfnCreateDebugUtilsMessengerEXT _ result =>
    if result = VK_SUCCESS then some (LifecycleEvent.created HandleKind.Messenger) else none
  | Event.vkCreateDevice _ _ result =>
    if result = VK_SUCCESS then some (LifecycleEvent.created HandleKind.LogicalDevice) else none
  | Event.vkDestroyDevice => some (LifecycleEvent.destroyed HandleKind.LogicalDevice)
  | Event.pfnDestroyDebugUtilsMessengerEXT => some (LifecycleEvent.destroyed HandleKind.Messenger)
  | Event.vkDestroyInstance => some (LifecycleEvent.destroyed HandleKind.Instance)
  | _ => none

/-- The lifecycle events of a trace, in order. -/
def lifecycle (trace : List Event) : List LifecycleEvent := trace.filterMap lifecycleOf

/-- The handles created along a trace, in creation order. -/
def createdHandles (trace : List Event) : List HandleKind :=
  (lifecycle trace).filterMap fun e =>
    match e with
    | LifecycleEvent.created h => some h
    | LifecycleEvent.destroyed _ => none

/-- The handles destroyed along a trace, in destruction order. -/
def destroyedHandles (trace : List Event) : List HandleKind :=
  (lifecycle trace).filterMap fun e =>
    match e with
    | LifecycleEvent.created _ => none
    | LifecycleEvent.destroyed h => some h

/-! ## Concrete runtimes used to evaluate the program -/

/-- A runtime in which every step succeeds: the requested layer is available, both
creation calls and the messenger entry point return `VK_SUCCESS`, two devices are
enumerated, of which only the second (handle 7) has a graphics family (at index 1), and the
window asks to close at the third query.  The standard library is one whose base-class copy
reports a generic message. -/
def exampleRuntime : Runtime :=
  { availableLayers := ["VK_LAYER_KHRONOS_validation"],
    glfwRequiredInstanceExtensions := ["VK_KHR_surface"],
    vkCreateInstance := fun _ => VK_SUCCESS,
    pfnCreateDebugUtilsMessengerEXT := some (fun _ => VK_SUCCESS),
    pfnDestroyDebugUtilsMessengerEXT := true,
    physicalDevices := [5, 7],
    queueFamilyProperties := fun d => if d = 7 then [⟨2, 1⟩, ⟨3, 1⟩] else [⟨2, 1⟩],
    vkCreateDevice := fun _ _ => VK_SUCCESS,
    windowShouldClose := fun k => k == 2,
    stdlib := genericWhatLib }

/-- The runtime `exampleRuntime`, except that no physical device is enumerated. -/
def noDeviceRuntime : Runtime :=
  { exampleRuntime with physicalDevices := [] }

/-- The runtime `noDeviceRuntime` with a standard library whose base class keeps the
message. -/
def noDeviceKeepingRuntime : Runtime :=
  { noDeviceRuntime with stdlib := messageKeepingLib }

/-! ## Lemmas on the queue-family scan -/

theorem hasGraphicsBit_iff (q : VkQueueFamilyProperties) :
    hasGraphicsBit q = true ↔ q.queueFlags &&& VK_QUEUE_GRAPHICS_BIT ≠ 0 := by
  simp [hasGraphicsBit]

theorem hasGraphicsBit_false_iff (q : VkQueueFamilyProperties) :
    hasGraphicsBit q = false ↔ q.queueFlags &&& VK_QUEUE_GRAPHICS_BIT = 0 := by
  simp [hasGraphicsBit]

/-- The scan started at counter value `i` with an empty optional either meets no graphics
family and returns the empty optional, or stops at the first graphics family, at position
`j`, and returns the counter value `i + j` converted to `uint32_t`. -/
theorem findQueueFamiliesLoop_spec (Q : List VkQueueFamilyProperties) :
    ∀ i : Nat,
      ((∀ q ∈ Q, hasGraphicsBit q = false) ∧ findQueueFamiliesLoop Q i ⟨none⟩ = ⟨none⟩) ∨
      ∃ j q, Q[j]? = some q ∧ hasGraphicsBit q = true ∧
        (∀ j1, j1 < j → ∀ q1, Q[j1]? = some q1 → hasGraphicsBit q1 = false) ∧
        findQueueFamiliesLoop Q i ⟨none⟩ = ⟨some ((i + j) % 2 ^ 32)⟩ := by
  induction Q with
  | nil => intro i; left; simp [findQueueFamiliesLoop]
  | cons a rest ih =>
    intro i
    by_cases ha : hasGraphicsBit a = true
    · right
      refine ⟨0, a, by simp, ha, ?_, ?_⟩
      · intro j1 hj1; omega
      · simp [findQueueFamiliesLoop, ha, QueueFamilyIndices.isComplete]
    · have ha0 : hasGraphicsBit a = false := by simpa using ha
      have hstep : findQueueFamiliesLoop (a :: rest) i ⟨none⟩
          = findQueueFamiliesLoop rest (i + 1) ⟨none⟩ := by
        simp [findQueueFamiliesLoop, ha0, QueueFamilyIndices.isComplete]
      rcases ih (i + 1) with ⟨hall, hres⟩ | ⟨j, q, hq, hg, hmin, hres⟩
      · left
        refine ⟨?_, by rw [hstep, hres]⟩
        intro q hq
        rcases List.mem_cons.mp hq with rfl | hq
        · exact ha0
        · exact hall q hq
      · right
        refine ⟨j + 1, q, by simpa using hq, hg, ?_, ?_⟩
        · intro j1 hj1 q1 hq1
          cases j1 with
          | zero =>
            have : a = q1 := by simpa using hq1
            rw [← this]; exact ha0
          | succ j2 =>
            exact hmin j2 (by omega) q1 (by simpa using hq1)
        · rw [hstep, hres]
          have : i + 1 + j = i + (j + 1) := by omega
          rw [this]

/-- The completeness test on the result of the scan is the existence of a graphics family. -/
theorem isComplete_findQueueFamiliesOf (Q : List VkQueueFamilyProperties) :
    (findQueueFamiliesOf Q).isComplete = Q.any hasGraphicsBit := by
  rcases findQueueFamiliesLoop_spec Q 0 with ⟨hall, hres⟩ | ⟨j, q, hq, hg, -, hres⟩
  · have hany : Q.any hasGraphicsBit = false := by
      rw [List.any_eq_false]
      intro q hq
      simp [hall q hq]
    simp [findQueueFamiliesOf, hres, QueueFamilyIndices.isComplete, hany]
  · have hany : Q.any hasGraphicsBit = true := by
      rw [List.any_eq_true]
      exact ⟨q, List.getElem?_mem hq, hg⟩
    simp [findQueueFamiliesOf, hres, QueueFamilyIndices.isComplete, hany]

theorem isDeviceSuitable_eq_any (rt : Runtime) (d : VkPhysicalDevice) :
    isDeviceSuitable rt d = (rt.queueFamilyProperties d).any hasGraphicsBit := by
  simp [isDeviceSuitable, findQueueFamilies, isComplete_findQueueFamiliesOf]

/-- On a family list whose length fits the `uint32_t` count, the result is `some i` exactly
for the smallest position `i` carrying the graphics bit. -/
theorem findQueueFamiliesOf_eq_some_iff (Q : List VkQueueFamilyProperties)
    (hlen : Q.length < 2 ^ 32) (i : Nat) :
    (findQueueFamiliesOf Q).graphicsFamily = some i ↔
      (∃ q, Q[i]? = some q ∧ hasGraphicsBit q = true) ∧
        ∀ j, j < i → ∀ q, Q[j]? = some q → hasGraphicsBit q = false := by
  rcases findQueueFamiliesLoop_spec Q 0 with ⟨hall, hres⟩ | ⟨j, q, hq, hg, hmin, hres⟩
  · constructor
    · intro h
      simp [findQueueFamiliesOf, hres] at h
    · rintro ⟨⟨q, hq, hg⟩, -⟩
      have := hall q (List.getElem?_mem hq)
      simp [this] at hg
  · have hj : j < Q.length := by
      rcases List.getElem?_eq_some_iff.mp hq with ⟨h, -⟩
      exact h
    have hmod : (0 + j) % 2 ^ 32 = j := by
      rw [Nat.zero_add]; exact Nat.mod_eq_of_lt (by omega)
    have hval : (findQueueFamiliesOf Q).graphicsFamily = some j := by
      simp only [findQueueFamiliesOf, hres, hmod]
    rw [hval]
    constructor
    · intro h
      have hij : j = i := by simpa using h
      subst hij
      exact ⟨⟨q, hq, hg⟩, hmin⟩
    · rintro ⟨⟨q1, hq1, hg1⟩, hmin1⟩
      rcases Nat.lt_trichotomy i j with hlt | heq | hgt
      · have := hmin i hlt q1 hq1
        simp [this] at hg1
      · rw [heq]
      · have := hmin1 j hgt q hq
        simp [this] at hg

theorem findQueueFamiliesOf_eq_none_iff (Q : List VkQueueFamilyProperties) :
    (findQueueFamiliesOf Q).graphicsFamily = none ↔ ∀ q ∈ Q, hasGraphicsBit q = false := by
  rcases findQueueFamiliesLoop_spec Q 0 with ⟨hall, hres⟩ | ⟨j, q, hq, hg, -, hres⟩
  · simp [findQueueFamiliesOf, hres]
    exact hall
  · constructor
    · intro h
      simp [findQueueFamiliesOf, hres] at h
    · intro h
      have := h q (List.getElem?_mem hq)
      simp [this] at hg

/-! ## Lemmas on the layer check -/

theorem layerFoundIn_iff (layerName : String) (A : List String) :
    layerFoundIn layerName A = true ↔ layerName ∈ A := by
  induction A with
  | nil => simp [layerFoundIn]
  | cons a rest ih =>
    by_cases h : layerName = a
    · simp [layerFoundIn, h]
    · simp [layerFoundIn, h, ih]

theorem checkValidationLayerSupport_iff (L A : List String) :
    checkValidationLayerSupport L A = true ↔ ∀ l ∈ L, l ∈ A := by
  induction L with
  | nil => simp [checkValidationLayerSupport]
  | cons l rest ih =>
    by_cases h : layerFoundIn l A = true
    · have hl : l ∈ A := (layerFoundIn_iff l A).mp h
      simp [checkValidationLayerSupport, h, ih, hl]
    · have hl : l ∉ A := fun hm => h ((layerFoundIn_iff l A).mpr hm)
      have h0 : layerFoundIn l A = false := by simpa using h
      simp [checkValidationLayerSupport, h0, hl]

/-! ## Lemmas on the device scan -/

theorem isDeviceSuitable_iff (rt : Runtime) (d : VkPhysicalDevice) :
    isDeviceSuitable rt d = true ↔
      ∃ q ∈ rt.queueFamilyProperties d, q.queueFlags &&& VK_QUEUE_GRAPHICS_BIT ≠ 0 := by
  rw [isDeviceSuitable_eq_any, List.any_eq_true]
  simp only [hasGraphicsBit_iff]

theorem isDeviceSuitable_false_iff (rt : Runtime) (d : VkPhysicalDevice) :
    isDeviceSuitable rt d = false ↔
      ∀ q ∈ rt.queueFamilyProperties d, q.queueFlags &&& VK_QUEUE_GRAPHICS_BIT = 0 := by
  rw [isDeviceSuitable_eq_any, List.any_eq_false]
  simp only [Bool.not_eq_true, hasGraphicsBit_false_iff]

/-- The loop keeps the member as it was when no device is suitable. -/
theorem pickPhysicalDeviceLoop_none (rt : Runtime) (D : List VkPhysicalDevice)
    (pd : VkPhysicalDevice) (h : ∀ d ∈ D, isDeviceSuitable rt d = false) :
    pickPhysicalDeviceLoop rt D pd = pd := by
  induction D with
  | nil => rfl
  | cons a rest ih =>
    have ha := h a (List.mem_cons_self a rest)
    simp only [pickPhysicalDeviceLoop, ha]
    exact ih (fun d hd => h d (List.mem_cons_of_mem a hd))

/-- The loop stores the first suitable device. -/
theorem pickPhysicalDeviceLoop_first (rt : Runtime) (as bs : List VkPhysicalDevice)
    (d pd : VkPhysicalDevice) (has : ∀ a ∈ as, isDeviceSuitable rt a = false)
    (hd : isDeviceSuitable rt d = true) :
    pickPhysicalDeviceLoop rt (as ++ d :: bs) pd = d := by
  induction as with
  | nil => simp [pickPhysicalDeviceLoop, hd]
  | cons a rest ih =>
    have ha := has a (List.mem_cons_self a rest)
    simp only [List.cons_append, pickPhysicalDeviceLoop, ha]
    exact ih (fun x hx => has x (List.mem_cons_of_mem a hx))

/-- Whatever the loop stores is the old value or a suitable element of the list. -/
theorem pickPhysicalDeviceLoop_cases (rt : Runtime) (D : List VkPhysicalDevice)
    (pd : VkPhysicalDevice) :
    ((∀ d ∈ D, isDeviceSuitable rt d = false) ∧ pickPhysicalDeviceLoop rt D pd = pd) ∨
    (pickPhysicalDeviceLoop rt D pd ∈ D ∧
      isDeviceSuitable rt (pickPhysicalDeviceLoop rt D pd) = true) := by
  induction D with
  | nil => left; simp [pickPhysicalDeviceLoop]
  | cons a rest ih =>
    by_cases ha : isDeviceSuitable rt a = true
    · right
      simp [pickPhysicalDeviceLoop, ha]
    · have ha0 : isDeviceSuitable rt a = false := by simpa using ha
      rcases ih with ⟨hall, hres⟩ | ⟨hmem, hsuit⟩
      · left
        refine ⟨?_, by simp only [pickPhysicalDeviceLoop, ha0]; exact hres⟩
        intro d hd
        rcases List.mem_cons.mp hd with rfl | hd
        · exact ha0
        · exact hall d hd
      · right
        simp only [pickPhysicalDeviceLoop, ha0]
        exact ⟨List.mem_cons_of_mem a hmem, hsuit⟩

/-! ## Lemmas on the lifecycle of a run -/

theorem lifecycle_append (a b : List Event) : lifecycle (a ++ b) = lifecycle a ++ lifecycle b := by
  simp [lifecycle]

theorem lifecycle_emit (s : App) (e : Event) :
    lifecycle (s.emit e).trace = lifecycle s.trace ++ (lifecycleOf e).toList := by
  simp only [App.emit, lifecycle_append]
  cases h : lifecycleOf e <;> simp [lifecycle, h]

/-- The step `createInstance` creates the Instance exactly when it returns normally. -/
theorem createInstance_lifecycle (cfg : Config) (rt : Runtime) (s : App) :
    lifecycle (createInstance cfg rt s).app.trace
      = lifecycle s.trace ++
        (if (createInstance cfg rt s).thrown = none
          then [LifecycleEvent.created HandleKind.Instance] else []) := by
  by_cases hguard : (cfg.enableValidationLayers
      && !checkValidationLayerSupport cfg.validationLayers rt.availableLayers) = true
  · simp [createInstance, hguard]
  · by_cases hres : rt.vkCreateInstance (instanceCreateInfo cfg rt) = VK_SUCCESS
    · simp [createInstance, hguard, hres, lifecycle_emit, lifecycleOf]
    · simp [createInstance, hguard, hres, lifecycle_emit, lifecycleOf]

/-- The step `setupDebugMessenger` creates the messenger exactly when diagnostics are enabled
and it returns normally. -/
theorem setupDebugMessenger_lifecycle (cfg : Config) (rt : Runtime) (s : App) :
    lifecycle (setupDebugMessenger cfg rt s).app.trace
      = lifecycle s.trace ++
        (if (setupDebugMessenger cfg rt s).thrown = none ∧ cfg.enableValidationLayers = true
          then [LifecycleEvent.created HandleKind.Messenger] else []) := by
  cases hen : cfg.enableValidationLayers
  · simp [setupDebugMessenger, hen]
  · cases hf : rt.pfnCreateDebugUtilsMessengerEXT with
    | none =>
      simp [setupDebugMessenger, hen, CreateDebugUtilsMessengerEXT, hf, lifecycle_emit,
        lifecycleOf, VK_ERROR_EXTENSION_NOT_PRESENT, VK_SUCCESS]
    | some func =>
      by_cases hres : func populateDebugMessengerCreateInfo = VK_SUCCESS
      · simp [setupDebugMessenger, hen, CreateDebugUtilsMessengerEXT, hf, lifecycle_emit,
          lifecycleOf, hres]
      · simp [setupDebugMessenger, hen, CreateDebugUtilsMessengerEXT, hf, lifecycle_emit,
          lifecycleOf, hres]

/-- The step `pickPhysicalDevice` makes no call. -/
theorem pickPhysicalDevice_trace (rt : Runtime) (s : App) :
    (pickPhysicalDevice rt s).app.trace = s.trace := by
  by_cases hcount : rt.physicalDevices.length = 0
  · simp [pickPhysicalDevice, hcount]
  · by_cases hnull :
        pickPhysicalDeviceLoop rt rt.physicalDevices s.physicalDevice = VK_NULL_HANDLE
    · simp [pickPhysicalDevice, hcount, hnull]
    · simp [pickPhysicalDevice, hcount, hnull]

/-- The step `createLogicalDevice` creates the device exactly when it returns normally. -/
theorem createLogicalDevice_lifecycle (cfg : Config) (rt : Runtime) (s : App) :
    lifecycle (createLogicalDevice cfg rt s).app.trace
      = lifecycle s.trace ++
        (if (createLogicalDevice cfg rt s).thrown = none
          then [LifecycleEvent.created HandleKind.LogicalDevice] else []) := by
  cases hk : (findQueueFamilies rt s.physicalDevice).graphicsFamily with
  | none => simp [createLogicalDevice, hk]
  | some k =>
    by_cases hres : rt.vkCreateDevice s.physicalDevice (deviceCreateInfo cfg k) = VK_SUCCESS
    · simp [createLogicalDevice, hk, hres, lifecycle_emit, lifecycleOf, App.emit,
        lifecycle_append]
      simp [lifecycle, lifecycleOf]
    · simp [createLogicalDevice, hk, hres, lifecycle_emit, lifecycleOf]

theorem andThen_of_none (o : Outcome) (f : App → Outcome) (h : o.thrown = none) :
    o.andThen f = f o.app := by
  simp [Outcome.andThen, h]

theorem andThen_of_some (o : Outcome) (f : App → Outcome) (e : CppException)
    (h : o.thrown = some e) : o.andThen f = o := by
  simp [Outcome.andThen, h]

/-- The startup sequence: on normal return the handles created are Instance, the messenger
if diagnostics are enabled, and the logical device, in this order; on a throw they are a
leading part of that sequence without the logical device. -/
theorem initVulkan_lifecycle (cfg : Config) (rt : Runtime) (s : App) :
    ((initVulkan cfg rt s).thrown = none →
      lifecycle (initVulkan cfg rt s).app.trace
        = lifecycle s.trace ++ [LifecycleEvent.created HandleKind.Instance] ++
          (if cfg.enableValidationLayers = true
            then [LifecycleEvent.created HandleKind.Messenger] else []) ++
          [LifecycleEvent.created HandleKind.LogicalDevice]) ∧
    ((initVulkan cfg rt s).thrown ≠ none →
      lifecycle (initVulkan cfg rt s).app.trace = lifecycle s.trace ∨
      lifecycle (initVulkan cfg rt s).app.trace
        = lifecycle s.trace ++ [LifecycleEvent.created HandleKind.Instance] ∨
      (cfg.enableValidationLayers = true ∧
        lifecycle (initVulkan cfg rt s).app.trace
          = lifecycle s.trace ++ [LifecycleEvent.created HandleKind.Instance,
              LifecycleEvent.created HandleKind.Messenger])) := by
  have h1 := createInstance_lifecycle cfg rt s
  cases ht1 : (createInstance cfg rt s).thrown with
  | some e1 =>
    have hinit : initVulkan cfg rt s = createInstance cfg rt s := by
      simp [initVulkan, andThen_of_some _ _ e1 ht1]
    rw [hinit]
    simp [ht1] at h1 ⊢
    left; exact h1
  | none =>
    simp only [ht1, if_true] at h1
    have h2 := setupDebugMessenger_lifecycle cfg rt (createInstance cfg rt s).app
    rw [h1] at h2
    cases ht2 : (setupDebugMessenger cfg rt (createInstance cfg rt s).app).thrown with
    | some e2 =>
      have hinit : initVulkan cfg rt s
          = setupDebugMessenger cfg rt (createInstance cfg rt s).app := by
        simp [initVulkan, andThen_of_none _ _ ht1, andThen_of_some _ _ e2 ht2]
      rw [hinit]
      simp [ht2] at h2 ⊢
      right; left; exact h2
    | none =>
      simp only [ht2, true_and] at h2
      have h3 := pickPhysicalDevice_trace rt
        (setupDebugMessenger cfg rt (createInstance cfg rt s).app).app
      cases ht3 : (pickPhysicalDevice rt
          (setupDebugMessenger cfg rt (createInstance cfg rt s).app).app).thrown with
      | some e3 =>
        have hinit : initVulkan cfg rt s = pickPhysicalDevice rt
            (setupDebugMessenger cfg rt (createInstance cfg rt s).app).app := by
          simp [initVulkan, andThen_of_none _ _ ht1, andThen_of_none _ _ ht2,
            andThen_of_some _ _ e3 ht3]
        rw [hinit, h3, h2]
        simp [ht3]
      | none =>
        have hinit : initVulkan cfg rt s = createLogicalDevice cfg rt (pickPhysicalDevice rt
            (setupDebugMessenger cfg rt (createInstance cfg rt s).app).app).app := by
          simp [initVulkan, andThen_of_none _ _ ht1, andThen_of_none _ _ ht2,
            andThen_of_none _ _ ht3]
        have h4 := createLogicalDevice_lifecycle cfg rt (pickPhysicalDevice rt
            (setupDebugMessenger cfg rt (createInstance cfg rt s).app).app).app
        rw [h3, h2] at h4
        rw [hinit, h4]
        cases ht4 : (createLogicalDevice cfg rt (pickPhysicalDevice rt
            (setupDebugMessenger cfg rt (createInstance cfg rt s).app).app).app).thrown with
        | some e4 => simp
        | none => simp

/-- The main loop makes no lifecycle call. -/
theorem mainLoop_lifecycle (rt : Runtime) :
    ∀ (fuel k : Nat) (s s1 : App), mainLoop rt fuel k s = some s1 →
      lifecycle s1.trace = lifecycle s.trace := by
  intro fuel
  induction fuel with
  | zero => intro k s s1 h; simp [mainLoop] at h
  | succ n ih =>
    intro k s s1 h
    by_cases hc : rt.windowShouldClose k = true
    · simp [mainLoop, hc] at h
      rw [h]
    · simp [mainLoop, hc] at h
      have := ih (k + 1) _ s1 h
      rw [this, lifecycle_emit]
      simp [lifecycleOf]

/-- The main loop ends once the window asks to close. -/
theorem mainLoop_ends (rt : Runtime) :
    ∀ (n k : Nat) (s : App), rt.windowShouldClose (k + n) = true →
      ∃ s1, mainLoop rt (n + 1) k s = some s1 := by
  intro n
  induction n with
  | zero =>
    intro k s h
    exact ⟨s, by simpa [mainLoop] using h⟩
  | succ m ih =>
    intro k s h
    by_cases hc : rt.windowShouldClose k = true
    · exact ⟨s, by simp [mainLoop, hc]⟩
    · have h1 : rt.windowShouldClose (k + 1 + m) = true := by
        have : k + 1 + m = k + (m + 1) := by omega
        rw [this]; exact h
      rcases ih (k + 1) (s.emit Event.glfwPollEvents) h1 with ⟨s1, hs1⟩
      refine ⟨s1, ?_⟩
      rw [mainLoop]
      simp only [hc]
      exact hs1

/-- The teardown: the device, then the messenger if diagnostics are enabled and its
destruction entry point resolves, then the Instance. -/
theorem cleanup_lifecycle (cfg : Config) (rt : Runtime) (s : App) :
    lifecycle (cleanup cfg rt s).trace
      = lifecycle s.trace ++ [LifecycleEvent.destroyed HandleKind.LogicalDevice] ++
        (if cfg.enableValidationLayers = true ∧ rt.pfnDestroyDebugUtilsMessengerEXT = true
          then [LifecycleEvent.destroyed HandleKind.Messenger] else []) ++
        [LifecycleEvent.destroyed HandleKind.Instance] := by
  cases hen : cfg.enableValidationLayers <;> cases hd : rt.pfnDestroyDebugUtilsMessengerEXT <;>
    simp [cleanup, hen, hd, DestroyDebugUtilsMessengerEXT, lifecycle_emit, lifecycleOf]

theorem lifecycle_initWindow (s : App) : lifecycle (initWindow s).trace = lifecycle s.trace := by
  simp [initWindow, lifecycle_emit, lifecycleOf]

/-- A run that throws is the startup sequence that threw, for every fuel. -/
theorem run_of_initVulkan_thrown (cfg : Config) (rt : Runtime) (fuel : Nat) (s : App)
    (h : (initVulkan cfg rt (initWindow s)).thrown ≠ none) :
    HelloTriangleApplication.run cfg rt fuel s = some (initVulkan cfg rt (initWindow s)) := by
  cases ht : (initVulkan cfg rt (initWindow s)).thrown with
  | none => exact absurd ht h
  | some e => simp [HelloTriangleApplication.run, ht]

/-- A run whose startup sequence returned normally is that sequence, the main loop and the
teardown. -/
theorem run_of_initVulkan_ok (cfg : Config) (rt : Runtime) (fuel : Nat) (s : App)
    (h : (initVulkan cfg rt (initWindow s)).thrown = none) :
    HelloTriangleApplication.run cfg rt fuel s
      = (mainLoop rt fuel 0 (initVulkan cfg rt (initWindow s)).app).map
          fun s1 => ⟨none, cleanup cfg rt s1⟩ := by
  simp only [HelloTriangleApplication.run, h]
  cases mainLoop rt fuel 0 (initVulkan cfg rt (initWindow s)).app <;> rfl

/-! ## The claims -/

/-- C1: for every family list Q the runtime reports for a device (its length fits the
`uint32_t` count), `findQueueFamilies` returns `graphicsFamily = some i` exactly for the
smallest index `i` whose flags include the graphics bit, returns an absent `graphicsFamily`
exactly when no family has the bit (in particular for empty Q), and its result is a function
of Q alone: any other call that is answered with the same Q returns the same result. -/
theorem findQueueFamilies_smallest_graphics_index (rt : Runtime) (device : VkPhysicalDevice)
    (Q : List VkQueueFamilyProperties) (hQ : rt.queueFamilyProperties device = Q)
    (hlen : Q.length < 2 ^ 32) :
    (∀ i : Nat, (findQueueFamilies rt device).graphicsFamily = some i ↔
        ((∃ q, Q[i]? = some q ∧ q.queueFlags &&& VK_QUEUE_GRAPHICS_BIT ≠ 0) ∧
          ∀ j, j < i → ∀ q, Q[j]? = some q → q.queueFlags &&& VK_QUEUE_GRAPHICS_BIT = 0)) ∧
    ((findQueueFamilies rt device).graphicsFamily = none ↔
        ∀ q ∈ Q, q.queueFlags &&& VK_QUEUE_GRAPHICS_BIT = 0) ∧
    ((findQueueFamilies rt device).isComplete = true ↔
        (findQueueFamilies rt device).graphicsFamily ≠ none) ∧
    (Q = [] → (findQueueFamilies rt device).graphicsFamily = none) ∧
    (∀ (rt1 : Runtime) (device1 : VkPhysicalDevice), rt1.queueFamilyProperties device1 = Q →
        findQueueFamilies rt1 device1 = findQueueFamilies rt device) := by
  subst hQ
  refine ⟨?_, ?_, ?_, ?_, ?_⟩
  · intro i
    simp only [findQueueFamilies, findQueueFamiliesOf_eq_some_iff _ hlen i,
      hasGraphicsBit_iff, hasGraphicsBit_false_iff]
  · simp only [findQueueFamilies, findQueueFamiliesOf_eq_none_iff, hasGraphicsBit_false_iff]
  · cases h : (findQueueFamilies rt device).graphicsFamily <;>
      simp [QueueFamilyIndices.isComplete, h]
  · intro hnil
    simp [findQueueFamilies, hnil, findQueueFamiliesOf, findQueueFamiliesLoop]
  · intro rt1 device1 h1
    simp [findQueueFamilies, h1]

/-- C1 at a concrete device: families with flags 2, 3, 1 give index 1. -/
theorem findQueueFamilies_smallest_graphics_index_witness :
    (findQueueFamilies
        ⟨[], [], fun _ => 0, none, false, [7], fun _ => [⟨2, 1⟩, ⟨3, 1⟩, ⟨1, 1⟩],
          fun _ _ => 0, fun _ => true, genericWhatLib⟩ 7).graphicsFamily = some 1 :=
  ((findQueueFamilies_smallest_graphics_index
      ⟨[], [], fun _ => 0, none, false, [7], fun _ => [⟨2, 1⟩, ⟨3, 1⟩, ⟨1, 1⟩],
        fun _ _ => 0, fun _ => true, genericWhatLib⟩ 7 [⟨2, 1⟩, ⟨3, 1⟩, ⟨1, 1⟩] rfl
      (by decide)).1 1).mpr (by decide)

/-- C3: `checkValidationLayerSupport` on requested names L and available names A is true if
and only if every name of L equals the name of some layer of A, and it is true for empty L
whatever A is. -/
theorem checkValidationLayerSupport_iff_all_available (L A : List String) :
    (checkValidationLayerSupport L A = true ↔ ∀ l ∈ L, ∃ a ∈ A, l = a) ∧
    checkValidationLayerSupport [] A = true := by
  refine ⟨?_, by simp [checkValidationLayerSupport]⟩
  rw [checkValidationLayerSupport_iff]
  constructor
  · intro h l hl
    exact ⟨l, h l hl, rfl⟩
  · intro h l hl
    rcases h l hl with ⟨a, ha, rfl⟩
    exact ha

/-- C8: `getRequiredExtensions` returns the windowing list W itself when diagnostics are
disabled, and W followed by the single name `VK_EXT_debug_utils` when they are enabled; in
both cases W is the leading part of the result, element by element. -/
theorem getRequiredExtensions_appends_debug_utils (cfg : Config) (rt : Runtime) :
    (cfg.enableValidationLayers = false →
        getRequiredExtensions cfg rt = rt.glfwRequiredInstanceExtensions) ∧
    (cfg.enableValidationLayers = true →
        getRequiredExtensions cfg rt
          = rt.glfwRequiredInstanceExtensions ++ [VK_EXT_DEBUG_UTILS_EXTENSION_NAME] ∧
        (getRequiredExtensions cfg rt).length = rt.glfwRequiredInstanceExtensions.length + 1) ∧
    (getRequiredExtensions cfg rt).take rt.glfwRequiredInstanceExtensions.length
        = rt.glfwRequiredInstanceExtensions := by
  cases h : cfg.enableValidationLayers <;> simp [getRequiredExtensions, h]

/-- C2: started with no device selected, on a list D of enumerated devices (valid handles,
so none is `VK_NULL_HANDLE`), `pickPhysicalDevice` returns normally with the first element of
D that has a graphics-capable queue family as the selected device and nothing else changed;
it throws if and only if no element of D has such a family, and what it throws is then one
of the two no-hardware errors (the first of them when D is empty). -/
theorem pickPhysicalDevice_selects_first_suitable (rt : Runtime) (s : App)
    (D : List VkPhysicalDevice) (hD : rt.physicalDevices = D)
    (hs : s.physicalDevice = VK_NULL_HANDLE) (hvalid : ∀ d ∈ D, d ≠ VK_NULL_HANDLE) :
    (∀ (as bs : List VkPhysicalDevice) (d : VkPhysicalDevice), D = as ++ d :: bs →
        (∀ a ∈ as, ∀ q ∈ rt.queueFamilyProperties a,
          q.queueFlags &&& VK_QUEUE_GRAPHICS_BIT = 0) →
        (∃ q ∈ rt.queueFamilyProperties d, q.queueFlags &&& VK_QUEUE_GRAPHICS_BIT ≠ 0) →
        pickPhysicalDevice rt s = ⟨none, { s with physicalDevice := d }⟩) ∧
    ((pickPhysicalDevice rt s).thrown ≠ none ↔
        ∀ d ∈ D, ∀ q ∈ rt.queueFamilyProperties d,
          q.queueFlags &&& VK_QUEUE_GRAPHICS_BIT = 0) ∧
    (∀ e, (pickPhysicalDevice rt s).thrown = some e →
        e = runtime_error "failed to find GPUs with Vulkan support!" ∨
        e = runtime_error "failed to find a suitable GPU!") ∧
    (D = [] → (pickPhysicalDevice rt s).thrown
        = some (runtime_error "failed to find GPUs with Vulkan support!")) := by
  subst hD
  refine ⟨?_, ?_, ?_, ?_⟩
  · intro as bs d hsplit has hd
    have hloop : pickPhysicalDeviceLoop rt rt.physicalDevices s.physicalDevice = d := by
      rw [hsplit]
      exact pickPhysicalDeviceLoop_first rt as bs d _
        (fun a ha => (isDeviceSuitable_false_iff rt a).mpr (has a ha))
        ((isDeviceSuitable_iff rt d).mpr hd)
    have hdne : d ≠ VK_NULL_HANDLE := hvalid d (by rw [hsplit]; simp)
    have hlen : rt.physicalDevices.length ≠ 0 := by rw [hsplit]; simp
    simp [pickPhysicalDevice, hlen, hloop, hdne]
  · simp only [← isDeviceSuitable_false_iff]
    by_cases hlen : rt.physicalDevices.length = 0
    · have hnil : rt.physicalDevices = [] := List.length_eq_zero.mp hlen
      simp [pickPhysicalDevice, hnil]
    · rcases pickPhysicalDeviceLoop_cases rt rt.physicalDevices s.physicalDevice with
        ⟨hall, hres⟩ | ⟨hmem, hsuit⟩
      · have hval : pickPhysicalDeviceLoop rt rt.physicalDevices s.physicalDevice
            = VK_NULL_HANDLE := hres.trans hs
        have hthrown : (pickPhysicalDevice rt s).thrown ≠ none := by
          simp [pickPhysicalDevice, hlen, hval]
        exact ⟨fun _ => hall, fun _ => hthrown⟩
      · have hne := hvalid _ hmem
        have hthrown : (pickPhysicalDevice rt s).thrown = none := by
          simp [pickPhysicalDevice, hlen, hne]
        refine ⟨fun h => absurd hthrown h, fun hall => ?_⟩
        have := hall _ hmem
        rw [this] at hsuit
        cases hsuit
  · intro e he
    by_cases hlen : rt.physicalDevices.length = 0
    · left
      simp [pickPhysicalDevice, hlen] at he
      exact he.symm
    · right
      by_cases hnull :
          pickPhysicalDeviceLoop rt rt.physicalDevices s.physicalDevice = VK_NULL_HANDLE
      · simp [pickPhysicalDevice, hlen, hnull] at he
        exact he.symm
      · simp [pickPhysicalDevice, hlen, hnull] at he
  · intro hnil
    simp [pickPhysicalDevice, hnil]

/-- C2 at a concrete runtime: of the devices 5 and 7, only 7 has a graphics family, and it is
the one selected. -/
theorem pickPhysicalDevice_selects_first_suitable_witness :
    pickPhysicalDevice
        ⟨[], [], fun _ => 0, none, false, [5, 7],
          fun d => if d = 7 then [⟨2, 1⟩, ⟨3, 1⟩] else [⟨2, 1⟩],
          fun _ _ => 0, fun _ => true, genericWhatLib⟩ App.fresh
      = ⟨none, { App.fresh with physicalDevice := 7 }⟩ :=
  (pickPhysicalDevice_selects_first_suitable
      ⟨[], [], fun _ => 0, none, false, [5, 7],
        fun d => if d = 7 then [⟨2, 1⟩, ⟨3, 1⟩] else [⟨2, 1⟩],
        fun _ _ => 0, fun _ => true, genericWhatLib⟩ App.fresh [5, 7] rfl rfl
      (by decide)).1 [5] [] 7 rfl (by decide) (by decide)

/-- C6: with diagnostics enabled and a requested layer missing from the runtime's list,
`createInstance` throws "validation layers requested, but not available!" and leaves the
application state, call trace included, as it found it, so that the whole run ends with that
error after the two window calls only and with no handle created; with diagnostics disabled
the outcome of `createInstance` is decided by the status of `vkCreateInstance` alone and is
never that error. -/
theorem createInstance_layer_check_before_creation (cfg : Config) (rt : Runtime) (s : App) :
    (cfg.enableValidationLayers = true →
      (∃ l ∈ cfg.validationLayers, l ∉ rt.availableLayers) →
        createInstance cfg rt s
          = ⟨some (runtime_error "validation layers requested, but not available!"), s⟩ ∧
        ∀ fuel, HelloTriangleApplication.run cfg rt fuel App.fresh
          = some ⟨some (runtime_error "validation layers requested, but not available!"),
              ⟨VK_NULL_HANDLE, none, [Event.glfwInit, Event.glfwCreateWindow]⟩⟩ ∧
          createdHandles [Event.glfwInit, Event.glfwCreateWindow] = []) ∧
    (cfg.enableValidationLayers = false →
        createInstance cfg rt s
          = (if rt.vkCreateInstance (instanceCreateInfo cfg rt) = VK_SUCCESS then
              ⟨none, s.emit (Event.vkCreateInstance (instanceCreateInfo cfg rt) VK_SUCCESS)⟩
            else
              ⟨some (runtime_error "failed to create instance!"),
                s.emit (Event.vkCreateInstance (instanceCreateInfo cfg rt)
                  (rt.vkCreateInstance (instanceCreateInfo cfg rt)))⟩) ∧
        (createInstance cfg rt s).thrown
          ≠ some (runtime_error "validation layers requested, but not available!")) := by
  constructor
  · intro hen hmiss
    have hcheck : checkValidationLayerSupport cfg.validationLayers rt.availableLayers = false := by
      rcases hmiss with ⟨l, hl, hnot⟩
      cases hc : checkValidationLayerSupport cfg.validationLayers rt.availableLayers
      · rfl
      · exact absurd ((checkValidationLayerSupport_iff _ _).mp hc l hl) hnot
    have hany : ∀ s1 : App, createInstance cfg rt s1
        = ⟨some (runtime_error "validation layers requested, but not available!"), s1⟩ := by
      intro s1
      simp [createInstance, hen, hcheck]
    refine ⟨hany s, fun fuel => ⟨?_, rfl⟩⟩
    simp [HelloTriangleApplication.run, initVulkan, hany, Outcome.andThen, initWindow,
      App.fresh, App.emit]
  · intro hdis
    by_cases hres : rt.vkCreateInstance (instanceCreateInfo cfg rt) = VK_SUCCESS
    · simp [createInstance, hdis, hres]
    · simp [createInstance, hdis, hres, runtime_error]

/-- C7: when `pickPhysicalDevice`, started with no device selected, has returned normally
with state `s1`, the graphics family index of the selected device is present in
`createLogicalDevice` (no `bad_optional_access`), its value `k` is the smallest index of a
family with the graphics bit, the create-info carries exactly one queue record, with family
`k` and count 1, and `createLogicalDevice` either, on `VK_SUCCESS`, retrieves the queue
`(k, 0)` right after the creation call, or, on any other status, throws
"failed to create logical device!" with the creation call as its only call. -/
theorem createLogicalDevice_after_pick (cfg : Config) (rt : Runtime) (s0 s1 : App)
    (hs : s0.physicalDevice = VK_NULL_HANDLE)
    (hpick : pickPhysicalDevice rt s0 = ⟨none, s1⟩)
    (hlen : (rt.queueFamilyProperties s1.physicalDevice).length < 2 ^ 32) :
    ∃ k : Nat,
      (findQueueFamilies rt s1.physicalDevice).graphicsFamily = some k ∧
      (∃ q, (rt.queueFamilyProperties s1.physicalDevice)[k]? = some q ∧
        q.queueFlags &&& VK_QUEUE_GRAPHICS_BIT ≠ 0) ∧
      (∀ j, j < k → ∀ q, (rt.queueFamilyProperties s1.physicalDevice)[j]? = some q →
        q.queueFlags &&& VK_QUEUE_GRAPHICS_BIT = 0) ∧
      (deviceCreateInfo cfg k).queueCreateInfos = [⟨k, 1⟩] ∧
      (rt.vkCreateDevice s1.physicalDevice (deviceCreateInfo cfg k) = VK_SUCCESS →
        createLogicalDevice cfg rt s1
          = ⟨none, ⟨s1.physicalDevice, some (k, 0),
              s1.trace ++ [Event.vkCreateDevice s1.physicalDevice (deviceCreateInfo cfg k)
                VK_SUCCESS, Event.vkGetDeviceQueue k 0]⟩⟩) ∧
      (rt.vkCreateDevice s1.physicalDevice (deviceCreateInfo cfg k) ≠ VK_SUCCESS →
        createLogicalDevice cfg rt s1
          = ⟨some (runtime_error "failed to create logical device!"),
              ⟨s1.physicalDevice, s1.graphicsQueue,
                s1.trace ++ [Event.vkCreateDevice s1.physicalDevice (deviceCreateInfo cfg k)
                  (rt.vkCreateDevice s1.physicalDevice (deviceCreateInfo cfg k))]⟩⟩) := by
  -- the selected device is suitable
  have hsuit : isDeviceSuitable rt s1.physicalDevice = true := by
    by_cases hcount : rt.physicalDevices.length = 0
    · simp [pickPhysicalDevice, hcount] at hpick
    · by_cases hnull :
          pickPhysicalDeviceLoop rt rt.physicalDevices s0.physicalDevice = VK_NULL_HANDLE
      · simp [pickPhysicalDevice, hcount, hnull] at hpick
      · have hs1 : s1.physicalDevice
            = pickPhysicalDeviceLoop rt rt.physicalDevices s0.physicalDevice := by
          simp [pickPhysicalDevice, hcount, hnull] at hpick
          rw [← hpick]
        rcases pickPhysicalDeviceLoop_cases rt rt.physicalDevices s0.physicalDevice with
          ⟨-, hres⟩ | ⟨-, hsuit⟩
        · exact absurd (hres.trans hs) hnull
        · rw [hs1]; exact hsuit
  have hcomplete : (findQueueFamilies rt s1.physicalDevice).isComplete = true := hsuit
  cases hk : (findQueueFamilies rt s1.physicalDevice).graphicsFamily with
  | none => simp [QueueFamilyIndices.isComplete, hk] at hcomplete
  | some k =>
    have hspec := (findQueueFamiliesOf_eq_some_iff _ hlen k).mp hk
    refine ⟨k, rfl, ?_, ?_, rfl, ?_, ?_⟩
    · rcases hspec.1 with ⟨q, hq, hg⟩
      exact ⟨q, hq, (hasGraphicsBit_iff q).mp hg⟩
    · intro j hj q hq
      exact (hasGraphicsBit_false_iff q).mp (hspec.2 j hj q hq)
    · intro hres
      simp [createLogicalDevice, hk, hres, App.emit]
    · intro hres
      simp [createLogicalDevice, hk, hres, App.emit]

/-- C7 at a concrete runtime: device 7 with family flags 2, 3 is selected, and family 1 is
the one requested and retrieved. -/
theorem createLogicalDevice_after_pick_witness :
    ∃ k : Nat,
      (findQueueFamilies
        ⟨[], [], fun _ => 0, none, false, [5, 7],
          fun d => if d = 7 then [⟨2, 1⟩, ⟨3, 1⟩] else [⟨2, 1⟩],
          fun _ _ => 0, fun _ => true, genericWhatLib⟩ 7).graphicsFamily = some k :=
  (createLogicalDevice_after_pick releaseConfig
      ⟨[], [], fun _ => 0, none, false, [5, 7],
        fun d => if d = 7 then [⟨2, 1⟩, ⟨3, 1⟩] else [⟨2, 1⟩],
        fun _ _ => 0, fun _ => true, genericWhatLib⟩
      App.fresh ⟨7, none, []⟩ rfl (by decide) (by decide)).imp fun _ h => h.1

/-- C10: when the lookup of the messenger-creation entry point yields no function,
`CreateDebugUtilsMessengerEXT` returns `VK_ERROR_EXTENSION_NOT_PRESENT`, a non-success status,
having made the lookup and no other call, and `setupDebugMessenger` with diagnostics enabled
throws "failed to set up debug messenger!"; when the lookup yields a function, the status
returned is the status of that function on the given create-info; with diagnostics disabled
`setupDebugMessenger` returns normally with the state, call trace included, untouched. -/
theorem CreateDebugUtilsMessengerEXT_resolution (cfg : Config) (rt : Runtime)
    (info : VkDebugUtilsMessengerCreateInfoEXT) (s : App) :
    (rt.pfnCreateDebugUtilsMessengerEXT = none →
        CreateDebugUtilsMessengerEXT rt info s
          = (VK_ERROR_EXTENSION_NOT_PRESENT,
              ⟨s.physicalDevice, s.graphicsQueue,
                s.trace ++ [Event.vkGetInstanceProcAddr "vkCreateDebugUtilsMessengerEXT"]⟩) ∧
        VK_ERROR_EXTENSION_NOT_PRESENT ≠ VK_SUCCESS ∧
        (cfg.enableValidationLayers = true →
          setupDebugMessenger cfg rt s
            = ⟨some (runtime_error "failed to set up debug messenger!"),
                ⟨s.physicalDevice, s.graphicsQueue,
                  s.trace ++ [Event.vkGetInstanceProcAddr "vkCreateDebugUtilsMessengerEXT"]⟩⟩)) ∧
    (∀ func, rt.pfnCreateDebugUtilsMessengerEXT = some func →
        CreateDebugUtilsMessengerEXT rt info s
          = (func info,
              ⟨s.physicalDevice, s.graphicsQueue,
                s.trace ++ [Event.vkGetInstanceProcAddr "vkCreateDebugUtilsMessengerEXT",
                  Event.pfnCreateDebugUtilsMessengerEXT info (func info)]⟩)) ∧
    (cfg.enableValidationLayers = false → setupDebugMessenger cfg rt s = ⟨none, s⟩) := by
  refine ⟨?_, ?_, ?_⟩
  · intro hnone
    have hcall : ∀ i, CreateDebugUtilsMessengerEXT rt i s
        = (VK_ERROR_EXTENSION_NOT_PRESENT,
            ⟨s.physicalDevice, s.graphicsQueue,
              s.trace ++ [Event.vkGetInstanceProcAddr "vkCreateDebugUtilsMessengerEXT"]⟩) := by
      intro i
      simp [CreateDebugUtilsMessengerEXT, hnone, App.emit]
    refine ⟨hcall info, by decide, ?_⟩
    intro hen
    simp only [setupDebugMessenger, hen, hcall]
    simp [VK_ERROR_EXTENSION_NOT_PRESENT, VK_SUCCESS]
  · intro func hsome
    simp [CreateDebugUtilsMessengerEXT, hsome, App.emit]
  · intro hdis
    simp [setupDebugMessenger, hdis]

/-- The lifecycle events of a run of a fresh application that returns normally, in terms of
the two lookups taken separately: Instance created, the messenger created if diagnostics are
enabled, the logical device created, the logical device destroyed, the messenger destroyed
if diagnostics are enabled and `DestroyDebugUtilsMessengerEXT` found its entry point,
Instance destroyed.  When the startup sequence returns normally and the window asks to close
at its query number `k`, the run returns normally with fuel `k + 1`. -/
theorem run_success_events (cfg : Config) (rt : Runtime) :
    (∀ (fuel : Nat) (o : Outcome),
      HelloTriangleApplication.run cfg rt fuel App.fresh = some o → o.thrown = none →
        lifecycle o.app.trace
          = [LifecycleEvent.created HandleKind.Instance] ++
            (if cfg.enableValidationLayers = true
              then [LifecycleEvent.created HandleKind.Messenger] else []) ++
            [LifecycleEvent.created HandleKind.LogicalDevice,
              LifecycleEvent.destroyed HandleKind.LogicalDevice] ++
            (if cfg.enableValidationLayers = true ∧ rt.pfnDestroyDebugUtilsMessengerEXT = true
              then [LifecycleEvent.destroyed HandleKind.Messenger] else []) ++
            [LifecycleEvent.destroyed HandleKind.Instance] ∧
        createdHandles o.app.trace
          = [HandleKind.Instance] ++
            (if cfg.enableValidationLayers = true then [HandleKind.Messenger] else []) ++
            [HandleKind.LogicalDevice] ∧
        (cfg.enableValidationLayers = false ∨ rt.pfnDestroyDebugUtilsMessengerEXT = true →
          destroyedHandles o.app.trace = (createdHandles o.app.trace).reverse)) ∧
    ((initVulkan cfg rt (initWindow App.fresh)).thrown = none →
      ∀ k, rt.windowShouldClose k = true →
        ∃ o, HelloTriangleApplication.run cfg rt (k + 1) App.fresh = some o ∧
          o.thrown = none) := by
  constructor
  · intro fuel o hrun hok
    have hinit : (initVulkan cfg rt (initWindow App.fresh)).thrown = none := by
      by_contra hne
      rw [run_of_initVulkan_thrown cfg rt fuel App.fresh hne] at hrun
      have : o = initVulkan cfg rt (initWindow App.fresh) := (Option.some.inj hrun).symm
      rw [this] at hok
      exact hne hok
    rw [run_of_initVulkan_ok cfg rt fuel App.fresh hinit] at hrun
    cases hloop : mainLoop rt fuel 0 (initVulkan cfg rt (initWindow App.fresh)).app with
    | none => simp [hloop] at hrun
    | some s1 =>
      simp only [hloop, Option.map_some'] at hrun
      have ho : o = ⟨none, cleanup cfg rt s1⟩ := (Option.some.inj hrun).symm
      have hlife : lifecycle o.app.trace
          = [LifecycleEvent.created HandleKind.Instance] ++
            (if cfg.enableValidationLayers = true
              then [LifecycleEvent.created HandleKind.Messenger] else []) ++
            [LifecycleEvent.created HandleKind.LogicalDevice,
              LifecycleEvent.destroyed HandleKind.LogicalDevice] ++
            (if cfg.enableValidationLayers = true ∧ rt.pfnDestroyDebugUtilsMessengerEXT = true
              then [LifecycleEvent.destroyed HandleKind.Messenger] else []) ++
            [LifecycleEvent.destroyed HandleKind.Instance] := by
        rw [ho]
        simp only [cleanup_lifecycle, mainLoop_lifecycle rt fuel 0 _ s1 hloop,
          (initVulkan_lifecycle cfg rt (initWindow App.fresh)).1 hinit, lifecycle_initWindow]
        simp [App.fresh, lifecycle]
      refine ⟨hlife, ?_, ?_⟩
      · simp only [createdHandles, hlife]
        cases cfg.enableValidationLayers <;> cases rt.pfnDestroyDebugUtilsMessengerEXT <;> simp
      · intro hcase
        simp only [createdHandles, destroyedHandles, hlife]
        rcases hcase with hdis | hres
        · simp [hdis]
        · cases cfg.enableValidationLayers <;> simp [hres]
  · intro hinit k hk
    rw [run_of_initVulkan_ok cfg rt (k + 1) App.fresh hinit]
    rcases mainLoop_ends rt k 0 (initVulkan cfg rt (initWindow App.fresh)).app
      (by simpa using hk) with ⟨s1, hs1⟩
    exact ⟨⟨none, cleanup cfg rt s1⟩, by simp [hs1], rfl⟩

/-- A stage that did not throw after `andThen` means neither part threw. -/
theorem andThen_thrown_none (o : Outcome) (f : App → Outcome)
    (h : (o.andThen f).thrown = none) : o.thrown = none ∧ (f o.app).thrown = none := by
  cases ho : o.thrown with
  | none => exact ⟨rfl, by rw [andThen_of_none o f ho] at h; exact h⟩
  | some e => rw [andThen_of_some o f e ho, ho] at h; cases h

/-- With diagnostics enabled, a startup sequence that returns normally has found the
messenger-creation entry point. -/
theorem initVulkan_ok_create_resolved (cfg : Config) (rt : Runtime) (s : App)
    (hen : cfg.enableValidationLayers = true) (h : (initVulkan cfg rt s).thrown = none) :
    rt.pfnCreateDebugUtilsMessengerEXT.isSome = true := by
  have h3 := (andThen_thrown_none _ _ h).1
  have h2 := (andThen_thrown_none _ _ h3).1
  have hsetup := (andThen_thrown_none _ _ h2).2
  cases hf : rt.pfnCreateDebugUtilsMessengerEXT with
  | some func => rfl
  | none =>
    simp [setupDebugMessenger, hen, CreateDebugUtilsMessengerEXT, hf,
      VK_ERROR_EXTENSION_NOT_PRESENT, VK_SUCCESS] at hsetup

/-- C4: on a runtime whose two lookups of the messenger entry points agree (creation and
destruction are commands of the one extension `VK_EXT_debug_utils`, resolved on the same
instance), in every run of a fresh application that returns normally the handles created
are exactly Instance, then the messenger if and only if diagnostics are enabled, then the
logical device; the handles destroyed are exactly the logical device, then the messenger if
and only if diagnostics are enabled, then Instance, which is the reverse of the creation
order; and every creation precedes every destruction, so no handle is destroyed before
every handle created after it has been destroyed.  Such runs exist: when the startup
sequence returns normally and the window asks to close at its query number `k`, the run
returns normally with fuel `k + 1`. -/
theorem run_success_reverse_teardown (cfg : Config) (rt : Runtime)
    (hagree : rt.pfnCreateDebugUtilsMessengerEXT.isSome = rt.pfnDestroyDebugUtilsMessengerEXT) :
    (∀ (fuel : Nat) (o : Outcome),
      HelloTriangleApplication.run cfg rt fuel App.fresh = some o → o.thrown = none →
        createdHandles o.app.trace
          = [HandleKind.Instance] ++
            (if cfg.enableValidationLayers = true then [HandleKind.Messenger] else []) ++
            [HandleKind.LogicalDevice] ∧
        destroyedHandles o.app.trace
          = [HandleKind.LogicalDevice] ++
            (if cfg.enableValidationLayers = true then [HandleKind.Messenger] else []) ++
            [HandleKind.Instance] ∧
        destroyedHandles o.app.trace = (createdHandles o.app.trace).reverse ∧
        lifecycle o.app.trace
          = (createdHandles o.app.trace).map LifecycleEvent.created ++
            (destroyedHandles o.app.trace).map LifecycleEvent.destroyed) ∧
    ((initVulkan cfg rt (initWindow App.fresh)).thrown = none →
      ∀ k, rt.windowShouldClose k = true →
        ∃ o, HelloTriangleApplication.run cfg rt (k + 1) App.fresh = some o ∧
          o.thrown = none) := by
  refine ⟨?_, (run_success_events cfg rt).2⟩
  intro fuel o hrun hok
  have hinit : (initVulkan cfg rt (initWindow App.fresh)).thrown = none := by
    by_contra hne
    rw [run_of_initVulkan_thrown cfg rt fuel App.fresh hne] at hrun
    have : o = initVulkan cfg rt (initWindow App.fresh) := (Option.some.inj hrun).symm
    rw [this] at hok
    exact hne hok
  have hdestroy : cfg.enableValidationLayers = true →
      rt.pfnDestroyDebugUtilsMessengerEXT = true := by
    intro hen
    rw [← hagree]
    exact initVulkan_ok_create_resolved cfg rt _ hen hinit
  have hlife := ((run_success_events cfg rt).1 fuel o hrun hok).1
  cases hen : cfg.enableValidationLayers with
  | false =>
    simp only [hen] at hlife
    simp [createdHandles, destroyedHandles, hlife]
  | true =>
    have hd := hdestroy hen
    simp only [hen, hd] at hlife
    simp [createdHandles, destroyedHandles, hlife]

/-- C4 at a concrete runtime: a debug build on `exampleRuntime` returns normally at the
third window query, having destroyed the logical device, the messenger and Instance, in this
order. -/
theorem run_success_reverse_teardown_witness :
    ∃ o, HelloTriangleApplication.run debugConfig exampleRuntime 3 App.fresh = some o ∧
      o.thrown = none ∧
      createdHandles o.app.trace
        = [HandleKind.Instance, HandleKind.Messenger, HandleKind.LogicalDevice] ∧
      destroyedHandles o.app.trace
        = [HandleKind.LogicalDevice, HandleKind.Messenger, HandleKind.Instance] :=
  ⟨_, rfl, by decide,
    ((run_success_reverse_teardown debugConfig exampleRuntime rfl).1 3 _ rfl (by decide)).1,
    ((run_success_reverse_teardown debugConfig exampleRuntime rfl).1 3 _ rfl (by decide)).2.1⟩

/-- C5, as the code has it: a run of a fresh application that ends with an exception has
destroyed no handle when the exception reaches `main`, which then exits with
`EXIT_FAILURE`; the handles created and left alive are none, or Instance, or Instance and
the messenger (the latter only with diagnostics enabled).  A startup sequence that throws
ends the run whatever the fuel. -/
theorem run_failure_destroys_nothing (cfg : Config) (rt : Runtime) :
    (∀ (fuel : Nat) (o : Outcome),
      HelloTriangleApplication.run cfg rt fuel App.fresh = some o → o.thrown ≠ none →
        destroyedHandles o.app.trace = [] ∧
        (createdHandles o.app.trace = [] ∨
          createdHandles o.app.trace = [HandleKind.Instance] ∨
          (cfg.enableValidationLayers = true ∧
            createdHandles o.app.trace = [HandleKind.Instance, HandleKind.Messenger])) ∧
        ∃ e, main cfg rt fuel = some ⟨EXIT_FAILURE, [e], o.app.trace⟩) ∧
    ((initVulkan cfg rt (initWindow App.fresh)).thrown ≠ none →
      ∀ fuel, HelloTriangleApplication.run cfg rt fuel App.fresh
        = some (initVulkan cfg rt (initWindow App.fresh))) := by
  constructor
  · intro fuel o hrun hthrown
    have hinit : (initVulkan cfg rt (initWindow App.fresh)).thrown ≠ none := by
      intro hok
      rw [run_of_initVulkan_ok cfg rt fuel App.fresh hok] at hrun
      cases hloop : mainLoop rt fuel 0 (initVulkan cfg rt (initWindow App.fresh)).app with
      | none => simp [hloop] at hrun
      | some s1 =>
        simp only [hloop, Option.map_some'] at hrun
        have ho : o = ⟨none, cleanup cfg rt s1⟩ := (Option.some.inj hrun).symm
        rw [ho] at hthrown
        exact hthrown rfl
    have hrun1 := hrun
    rw [run_of_initVulkan_thrown cfg rt fuel App.fresh hinit] at hrun
    have ho : o = initVulkan cfg rt (initWindow App.fresh) := (Option.some.inj hrun).symm
    have hlife := (initVulkan_lifecycle cfg rt (initWindow App.fresh)).2 hinit
    rw [← ho, lifecycle_initWindow] at hlife
    have hfresh : lifecycle App.fresh.trace = [] := rfl
    rw [hfresh] at hlife
    refine ⟨?_, ?_, ?_⟩
    · rcases hlife with h | h | ⟨-, h⟩ <;> simp [destroyedHandles, h]
    · rcases hlife with h | h | ⟨hen, h⟩
      · left; simp [createdHandles, h]
      · right; left; simp [createdHandles, h]
      · right; right; exact ⟨hen, by simp [createdHandles, h]⟩
    · cases he : o.thrown with
      | none => exact absurd he hthrown
      | some e =>
        refine ⟨(copyAsStdException rt.stdlib e).what, ?_⟩
        simp [main, DrawingTrianglesExample.run, hrun1, he]
  · intro hinit fuel
    exact run_of_initVulkan_thrown cfg rt fuel App.fresh hinit

/-- C5 as stated fails: with diagnostics enabled and no physical device enumerated, the run
ends with the error "failed to find GPUs with Vulkan support!" after Instance and messenger
have been created, and neither of them has been destroyed. -/
theorem run_failure_leaves_handles_alive :
    ∃ o, HelloTriangleApplication.run debugConfig noDeviceRuntime 0 App.fresh = some o ∧
      o.thrown = some (runtime_error "failed to find GPUs with Vulkan support!") ∧
      createdHandles o.app.trace = [HandleKind.Instance, HandleKind.Messenger] ∧
      destroyedHandles o.app.trace = [] ∧
      (main debugConfig noDeviceRuntime 0).map (fun r => destroyedHandles r.trace) = some [] := by
  refine ⟨_, rfl, ?_, ?_, ?_, ?_⟩ <;> decide

/-- C9 on the code: whenever the run of the application throws an object `e` that is not a
plain `std::exception`, what leaves `DrawingTrianglesExample::run` is a new object of dynamic
type `std::exception` whose message is the library's choice for a base-class copy, and that
message is what `main` logs.  At the concrete input (release build, no physical device,
a library with a generic base-class message) the inner error is the `runtime_error`
"failed to find GPUs with Vulkan support!" while `main` logs "std::exception".  With a
library whose base class keeps the message, the text logged is the inner one, on an object
that is a `std::exception` all the same. -/
theorem rethrow_by_value_slices :
    (∀ (cfg : Config) (rt : Runtime) (fuel : Nat) (o : Outcome) (e : CppException),
      HelloTriangleApplication.run cfg rt fuel App.fresh = some o → o.thrown = some e →
      e.dynamicType ≠ ExceptionType.exception →
        DrawingTrianglesExample.run cfg rt fuel
          = some ⟨some ⟨ExceptionType.exception, rt.stdlib.slicedWhat e⟩, o.app⟩ ∧
        main cfg rt fuel = some ⟨EXIT_FAILURE, [rt.stdlib.slicedWhat e], o.app.trace⟩) ∧
    (∃ o, HelloTriangleApplication.run releaseConfig noDeviceRuntime 0 App.fresh = some o ∧
      o.thrown = some (runtime_error "failed to find GPUs with Vulkan support!")) ∧
    (∃ o, DrawingTrianglesExample.run releaseConfig noDeviceRuntime 0 = some o ∧
      o.thrown = some ⟨ExceptionType.exception, "std::exception"⟩) ∧
    (main releaseConfig noDeviceRuntime 0).map (fun r => (r.exitStatus, r.cerr))
      = some (EXIT_FAILURE, ["std::exception"]) ∧
    (∃ o, DrawingTrianglesExample.run releaseConfig noDeviceKeepingRuntime 0 = some o ∧
      o.thrown
        = some ⟨ExceptionType.exception, "failed to find GPUs with Vulkan support!"⟩) := by
  refine ⟨?_, ⟨_, rfl, by decide⟩, ⟨_, rfl, by decide⟩, by decide, ⟨_, rfl, by decide⟩⟩
  intro cfg rt fuel o e hrun he hty
  have hdrun : DrawingTrianglesExample.run cfg rt fuel
      = some ⟨some ⟨ExceptionType.exception, rt.stdlib.slicedWhat e⟩, o.app⟩ := by
    simp [DrawingTrianglesExample.run, hrun, he, copyAsStdException, hty]
  refine ⟨hdrun, ?_⟩
  simp [main, hdrun]

end VulkanTutorial
